import Mathlib

/-!
Verification of the Vault Secrets Demo status reporter (`app/app.py`).

The application reads a fixed set of process environment variables, masks
password-like values, counts how many expected variables are populated, and
serializes the result.  We embed the environment as a partial map from
variable names to string values (`none` models an unset variable, matching
Python's `os.getenv` returning `None`), and the wall clock as a pair of
formatted readings (the `strftime` rendering used for `last_updated` and the
`isoformat` rendering used for `timestamp` / `last_check`).
-/

/-- The process environment: a partial map from variable names to values.
`env n = none` models an unset variable; `env n = some v` a variable set to
the string `v` (possibly empty). -/
def Env : Type := String → Option String

/-- One wall-clock reading, carried in the two string renderings the
application uses: `fmt` is the `strftime('%Y-%m-%d %H:%M:%S UTC')` rendering
and `iso` the `isoformat()` rendering of the same instant. -/
structure Clock where
  fmt : String
  iso : String
deriving DecidableEq, Repr

/-- Python truthiness of `os.getenv(name)`: `None` and the empty string are
falsy, every other string is truthy. -/
def truthy (o : Option String) : Bool :=
  match o with
  | none => false
  | some v => v != ""

/-- The `myapp` group of the secret snapshot (fields `username`, `password`,
`api_key`), as built by `get_secret_info`. -/
structure MyAppSecrets where
  username : String
  password : String
  api_key : String
deriving DecidableEq, Repr

/-- The `database` group of the secret snapshot (fields `host`, `port`,
`username`, `password`), as built by `get_secret_info`. -/
structure DatabaseSecrets where
  host : String
  port : String
  username : String
  password : String
deriving DecidableEq, Repr

/-- The value returned by `get_secret_info`: the two secret groups plus the
`last_updated` timestamp. -/
structure SecretSnapshot where
  myapp : MyAppSecrets
  database : DatabaseSecrets
  last_updated : String
deriving DecidableEq, Repr

/-- Embedding of `get_secret_info` from `app/app.py`:
non-password fields are `os.getenv(NAME, 'Not found')`, password fields are
`'***' if os.getenv(NAME) else 'Not found'`, and `last_updated` is the
current `strftime` reading. -/
def get_secret_info (env : Env) (c : Clock) : SecretSnapshot :=
  { myapp :=
      { username := (env "MYAPP_USERNAME").getD "Not found"
        password := if truthy (env "MYAPP_PASSWORD") then "***" else "Not found"
        api_key := (env "MYAPP_API_KEY").getD "Not found" }
    database :=
      { host := (env "DATABASE_HOST").getD "Not found"
        port := (env "DATABASE_PORT").getD "Not found"
        username := (env "DATABASE_USERNAME").getD "Not found"
        password := if truthy (env "DATABASE_PASSWORD") then "***" else "Not found" }
    last_updated := c.fmt }

/-- The value returned by `get_kubernetes_info`. -/
structure ClusterContext where
  «namespace» : String
  pod_name : String
  node_name : String
  service_account : String
deriving DecidableEq, Repr

/-- Embedding of `get_kubernetes_info` from `app/app.py`. -/
def get_kubernetes_info (env : Env) : ClusterContext :=
  { «namespace» := (env "POD_NAMESPACE").getD "Unknown"
    pod_name := (env "POD_NAME").getD "Unknown"
    node_name := (env "NODE_NAME").getD "Unknown"
    service_account := (env "SERVICE_ACCOUNT").getD "default" }

/-- Embedding of the `/` route handler `index`: the data mapping handed to
the HTML template, namely the secret snapshot and the cluster context. -/
def index (env : Env) (c : Clock) : SecretSnapshot × ClusterContext :=
  (get_secret_info env c, get_kubernetes_info env)

/-- Embedding of the `/api/secrets` route handler `api_secrets`: the secret
snapshot serialized as JSON. -/
def api_secrets (env : Env) (c : Clock) : SecretSnapshot :=
  get_secret_info env c

/-- The value returned by the `/api/health` handler `health_check`. -/
structure HealthPayload where
  status : String
  timestamp : String
deriving DecidableEq, Repr

/-- Embedding of the `/api/health` route handler `health_check`: a constant
`healthy` status together with the current `isoformat` reading.  The handler
reads no environment variable. -/
def health_check (c : Clock) : HealthPayload :=
  { status := "healthy", timestamp := c.iso }

/-- The value returned by the `/api/vault-status` handler `vault_status`. -/
structure VaultStatus where
  status : String
  secrets_loaded : Nat
  secrets_expected : Nat
  myapp_secrets : Nat
  database_secrets : Nat
  last_check : String
deriving DecidableEq, Repr

/-- The predicate `vault_status` counts with: a rendered field is counted as
loaded exactly when its value differs from the literal `"Not found"`
(`v != 'Not found'` in the source). -/
def countedAsLoaded (v : String) : Bool :=
  v != "Not found"

/-- `secrets['myapp'].values()` in iteration order. -/
def myappValues (s : SecretSnapshot) : List String :=
  [s.myapp.username, s.myapp.password, s.myapp.api_key]

/-- `secrets['database'].values()` in iteration order. -/
def databaseValues (s : SecretSnapshot) : List String :=
  [s.database.host, s.database.port, s.database.username, s.database.password]

/-- The status computation of `vault_status`, in source evaluation order:
`status = 'healthy' if total_loaded == total_expected else 'partial'`
followed by the override `if total_loaded == 0: status = 'failed'`. -/
def sourceStatus (total_loaded total_expected : Nat) : String :=
  let status := if total_loaded = total_expected then "healthy" else "partial"
  if total_loaded = 0 then "failed" else status

/-- Embedding of the `/api/vault-status` route handler `vault_status` from
`app/app.py`. -/
def vault_status (env : Env) (c : Clock) : VaultStatus :=
  let secrets := get_secret_info env c
  let myapp_loaded := (myappValues secrets).countP countedAsLoaded
  let db_loaded := (databaseValues secrets).countP countedAsLoaded
  let total_expected := 7
  let total_loaded := myapp_loaded + db_loaded
  { status := sourceStatus total_loaded total_expected
    secrets_loaded := total_loaded
    secrets_expected := total_expected
    myapp_secrets := myapp_loaded
    database_secrets := db_loaded
    last_check := c.iso }

/-- The spec's order-independent three-way classification, written in the
spec's stated order: zero first, then all-seven, else in between.  Used to
compare against the source's evaluation order. -/
def classifySpec (n : Nat) : String :=
  if n = 0 then "failed" else if n = 7 then "healthy" else "partial"

/-- The seven secret-bearing environment variable names. -/
def secretVarNames : List String :=
  ["MYAPP_USERNAME", "MYAPP_PASSWORD", "MYAPP_API_KEY",
   "DATABASE_HOST", "DATABASE_PORT", "DATABASE_USERNAME", "DATABASE_PASSWORD"]

/-- The four Kubernetes metadata environment variable names. -/
def k8sVarNames : List String :=
  ["POD_NAMESPACE", "POD_NAME", "NODE_NAME", "SERVICE_ACCOUNT"]

/-- How many of the seven secret-bearing variables are set (to any value,
including the empty string) in the given environment. -/
def countSet (env : Env) : Nat :=
  secretVarNames.countP (fun n => (env n).isSome)

/-- The environment with no variables set. -/
def emptyEnv : Env := fun _ => none

/-- A concrete clock reading used in concrete evaluations. -/
def clock0 : Clock := { fmt := "2026-10-12 00:00:00 UTC", iso := "2026-10-12T00:00:00" }

lemma sourceStatus7_iffs (n : Nat) :
    ((sourceStatus n 7 = "failed") ↔ n = 0) ∧
    ((sourceStatus n 7 = "healthy") ↔ n = 7) ∧
    ((sourceStatus n 7 = "partial") ↔ (n ≠ 0 ∧ n ≠ 7)) ∧
    sourceStatus n 7 = classifySpec n := by
  unfold sourceStatus classifySpec
  by_cases h0 : n = 0 <;> by_cases h7 : n = 7
  · omega
  · simp [h0, h7]
  · simp [h0, h7]
  · simp [h0, h7]

/-- C1: for every environment, the status of `vault_status` is determined by
the count of fields (across the `myapp` and `database` groups) whose rendered
value is not `"Not found"`: `failed` iff that count is 0, `healthy` iff it is
7, `partial` otherwise; and the source's evaluation order agrees with the
spec's zero-first order (`classifySpec`). -/
theorem C1_vault_status_three_way (env : Env) (c : Clock) :
    ((vault_status env c).status = "failed" ↔ (vault_status env c).secrets_loaded = 0) ∧
    ((vault_status env c).status = "healthy" ↔ (vault_status env c).secrets_loaded = 7) ∧
    ((vault_status env c).status = "partial" ↔
      ((vault_status env c).secrets_loaded ≠ 0 ∧ (vault_status env c).secrets_loaded ≠ 7)) ∧
    (vault_status env c).status = classifySpec (vault_status env c).secrets_loaded ∧
    (vault_status env c).secrets_loaded =
      (myappValues (get_secret_info env c)).countP countedAsLoaded +
      (databaseValues (get_secret_info env c)).countP countedAsLoaded := by
  have h := sourceStatus7_iffs ((vault_status env c).secrets_loaded)
  exact ⟨h.1, h.2.1, h.2.2.1, h.2.2.2, rfl⟩

/-- C5: for every clock value, `health_check` returns a payload whose status
is the constant `"healthy"` together with the current ISO 8601 reading; it is
a total function that reads no secret-bearing environment variable. -/
theorem C5_health_check_healthy (c : Clock) :
    (health_check c).status = "healthy" ∧ (health_check c).timestamp = c.iso :=
  ⟨rfl, rfl⟩

/-- C6: for every environment, `get_kubernetes_info` sources its four fields
from `POD_NAMESPACE`, `POD_NAME`, `NODE_NAME`, `SERVICE_ACCOUNT`, defaulting
to `"Unknown"` for namespace, pod_name, node_name and `"default"` for
service_account when absent. -/
theorem C6_kubernetes_info_fields (env : Env) :
    (∀ v, env "POD_NAMESPACE" = some v → (get_kubernetes_info env).«namespace» = v) ∧
    (env "POD_NAMESPACE" = none → (get_kubernetes_info env).«namespace» = "Unknown") ∧
    (∀ v, env "POD_NAME" = some v → (get_kubernetes_info env).pod_name = v) ∧
    (env "POD_NAME" = none → (get_kubernetes_info env).pod_name = "Unknown") ∧
    (∀ v, env "NODE_NAME" = some v → (get_kubernetes_info env).node_name = v) ∧
    (env "NODE_NAME" = none → (get_kubernetes_info env).node_name = "Unknown") ∧
    (∀ v, env "SERVICE_ACCOUNT" = some v → (get_kubernetes_info env).service_account = v) ∧
    (env "SERVICE_ACCOUNT" = none → (get_kubernetes_info env).service_account = "default") := by
  refine ⟨?_, ?_, ?_, ?_, ?_, ?_, ?_, ?_⟩ <;>
    first
      | (intro v h; simp [get_kubernetes_info, h])
      | (intro h; simp [get_kubernetes_info, h])

/-- A concrete environment setting only `POD_NAMESPACE`. -/
def envK : Env := fun n => if n = "POD_NAMESPACE" then some "prod" else none

theorem C6_kubernetes_info_fields_witness :
    (get_kubernetes_info envK).«namespace» = "prod" ∧
    (get_kubernetes_info envK).pod_name = "Unknown" ∧
    (get_kubernetes_info envK).node_name = "Unknown" ∧
    (get_kubernetes_info envK).service_account = "default" := by
  have h := C6_kubernetes_info_fields envK
  exact ⟨h.1 "prod" (by decide), h.2.2.2.1 (by decide),
    h.2.2.2.2.2.1 (by decide), h.2.2.2.2.2.2.2 (by decide)⟩

/-- C9: for every environment, the `/api/vault-status` response satisfies
`secrets_loaded = myapp_secrets + database_secrets`, `secrets_expected = 7`,
`myapp_secrets ≤ 3` and `database_secrets ≤ 4`. -/
theorem C9_vault_status_arith_invariant (env : Env) (c : Clock) :
    (vault_status env c).secrets_loaded =
      (vault_status env c).myapp_secrets + (vault_status env c).database_secrets ∧
    (vault_status env c).secrets_expected = 7 ∧
    (vault_status env c).myapp_secrets ≤ 3 ∧
    (vault_status env c).database_secrets ≤ 4 := by
  refine ⟨rfl, rfl, ?_, ?_⟩
  · show (myappValues (get_secret_info env c)).countP countedAsLoaded ≤ 3
    simp only [myappValues, List.countP_cons, List.countP_nil]
    split_ifs <;> omega
  · show (databaseValues (get_secret_info env c)).countP countedAsLoaded ≤ 4
    simp only [databaseValues, List.countP_cons, List.countP_nil]
    split_ifs <;> omega

/-- C2 (amended): for every environment, each password field renders as
`"***"` when its source variable is set to a non-empty value and as
`"Not found"` when it is unset, and never equals the raw environment value
unless that raw value is itself the literal `"***"`; both the HTML view data
and the `/api/secrets` JSON carry the same snapshot. -/
theorem C2_password_masking (env : Env) (c : Clock) :
    (∀ v, env "MYAPP_PASSWORD" = some v → v ≠ "" →
      (get_secret_info env c).myapp.password = "***") ∧
    (env "MYAPP_PASSWORD" = none →
      (get_secret_info env c).myapp.password = "Not found") ∧
    (∀ v, env "MYAPP_PASSWORD" = some v → v ≠ "***" →
      (get_secret_info env c).myapp.password ≠ v) ∧
    (∀ v, env "DATABASE_PASSWORD" = some v → v ≠ "" →
      (get_secret_info env c).database.password = "***") ∧
    (env "DATABASE_PASSWORD" = none →
      (get_secret_info env c).database.password = "Not found") ∧
    (∀ v, env "DATABASE_PASSWORD" = some v → v ≠ "***" →
      (get_secret_info env c).database.password ≠ v) ∧
    api_secrets env c = get_secret_info env c ∧
    (index env c).1 = get_secret_info env c := by
  refine ⟨?_, ?_, ?_, ?_, ?_, ?_, rfl, rfl⟩
  · intro v h hv; simp [get_secret_info, truthy, h, hv]
  · intro h; simp [get_secret_info, truthy, h]
  · intro v h hne
    by_cases hv : v = ""
    · subst hv; simp [get_secret_info, truthy, h]
    · have : (get_secret_info env c).myapp.password = "***" := by
        simp [get_secret_info, truthy, h, hv]
      rw [this]; exact fun hc => hne hc.symm
  · intro v h hv; simp [get_secret_info, truthy, h, hv]
  · intro h; simp [get_secret_info, truthy, h]
  · intro v h hne
    by_cases hv : v = ""
    · subst hv; simp [get_secret_info, truthy, h]
    · have : (get_secret_info env c).database.password = "***" := by
        simp [get_secret_info, truthy, h, hv]
      rw [this]; exact fun hc => hne hc.symm

/-- A concrete environment setting only `MYAPP_PASSWORD`, to `"s3cret"`. -/
def envPwd : Env := fun n => if n = "MYAPP_PASSWORD" then some "s3cret" else none

theorem C2_password_masking_witness :
    (get_secret_info envPwd clock0).myapp.password = "***" ∧
    (get_secret_info envPwd clock0).database.password = "Not found" ∧
    (get_secret_info envPwd clock0).myapp.password ≠ "s3cret" := by
  have h := C2_password_masking envPwd clock0
  exact ⟨h.1 "s3cret" (by decide) (by decide), h.2.2.2.2.1 (by decide),
    h.2.2.1 "s3cret" (by decide) (by decide)⟩

/-- A concrete environment setting `MYAPP_PASSWORD` to the literal `"***"`. -/
def envStarPwd : Env := fun n => if n = "MYAPP_PASSWORD" then some "***" else none

/-- C2 counterexample: with `MYAPP_PASSWORD` set to the non-empty value
`"***"`, the rendered password equals the raw environment value, so the
clause "is never the raw environment value" fails as stated. -/
theorem C2_counterexample :
    envStarPwd "MYAPP_PASSWORD" = some "***" ∧ "***" ≠ "" ∧
    (get_secret_info envStarPwd clock0).myapp.password = "***" := by
  exact ⟨by decide, by decide, by decide⟩

/-- C4: for every environment, every secret field whose underlying variable
is absent renders as the literal `"Not found"`; with no variables set,
`/api/secrets` returns all seven fields as `"Not found"` plus the
`last_updated` timestamp. -/
theorem C4_absent_renders_not_found (env : Env) (c : Clock) :
    (env "MYAPP_USERNAME" = none → (get_secret_info env c).myapp.username = "Not found") ∧
    (env "MYAPP_PASSWORD" = none → (get_secret_info env c).myapp.password = "Not found") ∧
    (env "MYAPP_API_KEY" = none → (get_secret_info env c).myapp.api_key = "Not found") ∧
    (env "DATABASE_HOST" = none → (get_secret_info env c).database.host = "Not found") ∧
    (env "DATABASE_PORT" = none → (get_secret_info env c).database.port = "Not found") ∧
    (env "DATABASE_USERNAME" = none → (get_secret_info env c).database.username = "Not found") ∧
    (env "DATABASE_PASSWORD" = none → (get_secret_info env c).database.password = "Not found") ∧
    api_secrets emptyEnv c =
      { myapp := { username := "Not found", password := "Not found", api_key := "Not found" }
        database := { host := "Not found", port := "Not found",
                      username := "Not found", password := "Not found" }
        last_updated := c.fmt } := by
  refine ⟨?_, ?_, ?_, ?_, ?_, ?_, ?_, rfl⟩ <;>
    (intro h; simp [get_secret_info, truthy, h])

theorem C4_absent_renders_not_found_witness :
    (get_secret_info emptyEnv clock0).myapp.username = "Not found" ∧
    (get_secret_info emptyEnv clock0).myapp.password = "Not found" ∧
    (get_secret_info emptyEnv clock0).database.password = "Not found" := by
  have h := C4_absent_renders_not_found emptyEnv clock0
  exact ⟨h.1 rfl, h.2.1 rfl, h.2.2.2.2.2.2.1 rfl⟩

/-- C8: a non-password secret variable set to the empty string renders as the
empty string (not `"Not found"`) and satisfies the predicate `vault_status`
counts with, whereas a password variable set to the empty string renders as
`"Not found"` and does not satisfy it.  The final two conjuncts record that
`vault_status` counts exactly with `countedAsLoaded`. -/
theorem C8_empty_string_handling (env : Env) (c : Clock) :
    (env "MYAPP_USERNAME" = some "" → (get_secret_info env c).myapp.username = "" ∧
      countedAsLoaded (get_secret_info env c).myapp.username = true) ∧
    (env "MYAPP_API_KEY" = some "" → (get_secret_info env c).myapp.api_key = "" ∧
      countedAsLoaded (get_secret_info env c).myapp.api_key = true) ∧
    (env "DATABASE_HOST" = some "" → (get_secret_info env c).database.host = "" ∧
      countedAsLoaded (get_secret_info env c).database.host = true) ∧
    (env "DATABASE_PORT" = some "" → (get_secret_info env c).database.port = "" ∧
      countedAsLoaded (get_secret_info env c).database.port = true) ∧
    (env "DATABASE_USERNAME" = some "" → (get_secret_info env c).database.username = "" ∧
      countedAsLoaded (get_secret_info env c).database.username = true) ∧
    (env "MYAPP_PASSWORD" = some "" → (get_secret_info env c).myapp.password = "Not found" ∧
      countedAsLoaded (get_secret_info env c).myapp.password = false) ∧
    (env "DATABASE_PASSWORD" = some "" → (get_secret_info env c).database.password = "Not found" ∧
      countedAsLoaded (get_secret_info env c).database.password = false) ∧
    (vault_status env c).myapp_secrets =
      (myappValues (get_secret_info env c)).countP countedAsLoaded ∧
    (vault_status env c).database_secrets =
      (databaseValues (get_secret_info env c)).countP countedAsLoaded := by
  refine ⟨?_, ?_, ?_, ?_, ?_, ?_, ?_, rfl, rfl⟩ <;>
    (intro h; constructor <;> simp [get_secret_info, truthy, countedAsLoaded, h])

/-- A concrete environment setting `MYAPP_USERNAME` and `MYAPP_PASSWORD` to
the empty string. -/
def envEmptyVals : Env := fun n =>
  if n = "MYAPP_USERNAME" then some ""
  else if n = "MYAPP_PASSWORD" then some "" else none

theorem C8_empty_string_handling_witness :
    (get_secret_info envEmptyVals clock0).myapp.username = "" ∧
    countedAsLoaded (get_secret_info envEmptyVals clock0).myapp.username = true ∧
    (get_secret_info envEmptyVals clock0).myapp.password = "Not found" ∧
    countedAsLoaded (get_secret_info envEmptyVals clock0).myapp.password = false := by
  have h := C8_empty_string_handling envEmptyVals clock0
  obtain ⟨h1, h2⟩ := h.1 (by decide)
  obtain ⟨h3, h4⟩ := h.2.2.2.2.2.1 (by decide)
  exact ⟨h1, h2, h3, h4⟩

lemma get_secret_info_congr (e1 e2 : Env) (c : Clock)
    (h : ∀ n ∈ secretVarNames, e1 n = e2 n) :
    get_secret_info e1 c = get_secret_info e2 c := by
  have h1 := h "MYAPP_USERNAME" (by decide)
  have h2 := h "MYAPP_PASSWORD" (by decide)
  have h3 := h "MYAPP_API_KEY" (by decide)
  have h4 := h "DATABASE_HOST" (by decide)
  have h5 := h "DATABASE_PORT" (by decide)
  have h6 := h "DATABASE_USERNAME" (by decide)
  have h7 := h "DATABASE_PASSWORD" (by decide)
  simp only [get_secret_info, h1, h2, h3, h4, h5, h6, h7]

lemma get_kubernetes_info_congr (e1 e2 : Env)
    (h : ∀ n ∈ k8sVarNames, e1 n = e2 n) :
    get_kubernetes_info e1 = get_kubernetes_info e2 := by
  have h1 := h "POD_NAMESPACE" (by decide)
  have h2 := h "POD_NAME" (by decide)
  have h3 := h "NODE_NAME" (by decide)
  have h4 := h "SERVICE_ACCOUNT" (by decide)
  simp only [get_kubernetes_info, h1, h2, h3, h4]

/-- C7: every operation is a pure function of the environment mapping and the
clock reading: whenever two environments agree on the variables an operation
reads, the outputs coincide (so two runs with identical environment contents
and clock readings produce identical outputs), and `health_check` depends on
the clock alone.  The embedding is state-free: no operation returns a
modified environment. -/
theorem C7_operations_pure (e1 e2 : Env) (c : Clock)
    (hs : ∀ n ∈ secretVarNames, e1 n = e2 n)
    (hk : ∀ n ∈ k8sVarNames, e1 n = e2 n) :
    get_secret_info e1 c = get_secret_info e2 c ∧
    get_kubernetes_info e1 = get_kubernetes_info e2 ∧
    index e1 c = index e2 c ∧
    api_secrets e1 c = api_secrets e2 c ∧
    vault_status e1 c = vault_status e2 c ∧
    health_check c = health_check c := by
  have hsec := get_secret_info_congr e1 e2 c hs
  have hk8s := get_kubernetes_info_congr e1 e2 hk
  refine ⟨hsec, hk8s, ?_, ?_, ?_, rfl⟩
  · simp [index, hsec, hk8s]
  · simp [api_secrets, hsec]
  · simp [vault_status, hsec]

/-- A concrete environment setting only the unrelated variable `FOO`. -/
def envFoo : Env := fun n => if n = "FOO" then some "bar" else none

theorem C7_operations_pure_witness :
    get_secret_info emptyEnv clock0 = get_secret_info envFoo clock0 ∧
    get_kubernetes_info emptyEnv = get_kubernetes_info envFoo ∧
    vault_status emptyEnv clock0 = vault_status envFoo clock0 := by
  have h := C7_operations_pure emptyEnv envFoo clock0 (by decide) (by decide)
  exact ⟨h.1, h.2.1, h.2.2.2.2.1⟩

/-- The environment `env` with the variable `n` removed. -/
def unsetVar (env : Env) (n : String) : Env :=
  fun m => if m = n then none else env m

/-- C10: a non-password secret variable set to the literal string
`"Not found"` renders verbatim, does not satisfy the predicate
`vault_status` counts with, and the whole snapshot is indistinguishable from
the one produced with that variable unset. -/
theorem C10_not_found_literal_value (env : Env) (c : Clock) :
    (env "MYAPP_USERNAME" = some "Not found" →
      (get_secret_info env c).myapp.username = "Not found" ∧
      countedAsLoaded (get_secret_info env c).myapp.username = false ∧
      get_secret_info env c = get_secret_info (unsetVar env "MYAPP_USERNAME") c) ∧
    (env "MYAPP_API_KEY" = some "Not found" →
      (get_secret_info env c).myapp.api_key = "Not found" ∧
      countedAsLoaded (get_secret_info env c).myapp.api_key = false ∧
      get_secret_info env c = get_secret_info (unsetVar env "MYAPP_API_KEY") c) ∧
    (env "DATABASE_HOST" = some "Not found" →
      (get_secret_info env c).database.host = "Not found" ∧
      countedAsLoaded (get_secret_info env c).database.host = false ∧
      get_secret_info env c = get_secret_info (unsetVar env "DATABASE_HOST") c) ∧
    (env "DATABASE_PORT" = some "Not found" →
      (get_secret_info env c).database.port = "Not found" ∧
      countedAsLoaded (get_secret_info env c).database.port = false ∧
      get_secret_info env c = get_secret_info (unsetVar env "DATABASE_PORT") c) ∧
    (env "DATABASE_USERNAME" = some "Not found" →
      (get_secret_info env c).database.username = "Not found" ∧
      countedAsLoaded (get_secret_info env c).database.username = false ∧
      get_secret_info env c = get_secret_info (unsetVar env "DATABASE_USERNAME") c) := by
  refine ⟨?_, ?_, ?_, ?_, ?_⟩ <;>
    (intro h;
     refine ⟨by simp [get_secret_info, h], by simp [get_secret_info, countedAsLoaded, h], ?_⟩;
     simp [get_secret_info, unsetVar, h])

/-- A concrete environment setting `DATABASE_HOST` to the literal
`"Not found"`. -/
def envNFHost : Env := fun n => if n = "DATABASE_HOST" then some "Not found" else none

theorem C10_not_found_literal_value_witness :
    (get_secret_info envNFHost clock0).database.host = "Not found" ∧
    countedAsLoaded (get_secret_info envNFHost clock0).database.host = false ∧
    get_secret_info envNFHost clock0 =
      get_secret_info (unsetVar envNFHost "DATABASE_HOST") clock0 := by
  have h := C10_not_found_literal_value envNFHost clock0
  exact h.2.2.1 (by decide)

/-- A value that makes a set variable count as populated: non-empty for the
password variables, different from the literal `"Not found"` for the rest. -/
def goodValueB (n v : String) : Bool :=
  if n = "MYAPP_PASSWORD" ∨ n = "DATABASE_PASSWORD" then v != "" else v != "Not found"

/-- The variable `n` is either unset or set to a populating value in `env`. -/
def goodEnvB (env : Env) (n : String) : Bool :=
  match env n with
  | none => true
  | some v => goodValueB n v

lemma goodEnvB_some (env : Env) (n : String) (hg : goodEnvB env n = true) :
    ∀ v, env n = some v → goodValueB n v = true := by
  intro v hv
  unfold goodEnvB at hg
  rw [hv] at hg
  exact hg

lemma countedAsLoaded_getD (o : Option String)
    (h : ∀ v, o = some v → (v != "Not found") = true) :
    countedAsLoaded (o.getD "Not found") = o.isSome := by
  cases o with
  | none => rfl
  | some v =>
      simp only [Option.getD_some, Option.isSome_some, countedAsLoaded]
      exact h v rfl

lemma countedAsLoaded_mask (o : Option String)
    (h : ∀ v, o = some v → (v != "") = true) :
    countedAsLoaded (if truthy o then "***" else "Not found") = o.isSome := by
  cases o with
  | none => rfl
  | some v =>
      have hv := h v rfl
      simp [truthy, countedAsLoaded, hv]

lemma total_loaded_eq_countSet (env : Env) (c : Clock)
    (hg : ∀ n ∈ secretVarNames, goodEnvB env n = true) :
    (myappValues (get_secret_info env c)).countP countedAsLoaded +
    (databaseValues (get_secret_info env c)).countP countedAsLoaded = countSet env := by
  have e1 : countedAsLoaded ((env "MYAPP_USERNAME").getD "Not found")
      = (env "MYAPP_USERNAME").isSome := by
    refine countedAsLoaded_getD _ (fun v hv => ?_)
    simpa [goodValueB] using goodEnvB_some env "MYAPP_USERNAME" (hg _ (by decide)) v hv
  have e2 : countedAsLoaded (if truthy (env "MYAPP_PASSWORD") then "***" else "Not found")
      = (env "MYAPP_PASSWORD").isSome := by
    refine countedAsLoaded_mask _ (fun v hv => ?_)
    simpa [goodValueB] using goodEnvB_some env "MYAPP_PASSWORD" (hg _ (by decide)) v hv
  have e3 : countedAsLoaded ((env "MYAPP_API_KEY").getD "Not found")
      = (env "MYAPP_API_KEY").isSome := by
    refine countedAsLoaded_getD _ (fun v hv => ?_)
    simpa [goodValueB] using goodEnvB_some env "MYAPP_API_KEY" (hg _ (by decide)) v hv
  have e4 : countedAsLoaded ((env "DATABASE_HOST").getD "Not found")
      = (env "DATABASE_HOST").isSome := by
    refine countedAsLoaded_getD _ (fun v hv => ?_)
    simpa [goodValueB] using goodEnvB_some env "DATABASE_HOST" (hg _ (by decide)) v hv
  have e5 : countedAsLoaded ((env "DATABASE_PORT").getD "Not found")
      = (env "DATABASE_PORT").isSome := by
    refine countedAsLoaded_getD _ (fun v hv => ?_)
    simpa [goodValueB] using goodEnvB_some env "DATABASE_PORT" (hg _ (by decide)) v hv
  have e6 : countedAsLoaded ((env "DATABASE_USERNAME").getD "Not found")
      = (env "DATABASE_USERNAME").isSome := by
    refine countedAsLoaded_getD _ (fun v hv => ?_)
    simpa [goodValueB] using goodEnvB_some env "DATABASE_USERNAME" (hg _ (by decide)) v hv
  have e7 : countedAsLoaded (if truthy (env "DATABASE_PASSWORD") then "***" else "Not found")
      = (env "DATABASE_PASSWORD").isSome := by
    refine countedAsLoaded_mask _ (fun v hv => ?_)
    simpa [goodValueB] using goodEnvB_some env "DATABASE_PASSWORD" (hg _ (by decide)) v hv
  simp only [myappValues, databaseValues, get_secret_info, countSet, secretVarNames,
    List.countP_cons, List.countP_nil, e1, e2, e3, e4, e5, e6, e7]
  split_ifs <;> omega

/-- C3 (amended): for every environment in which a proper non-empty,
non-complete subset of the 7 secret-bearing variables is set, with password
variables set to non-empty values and the other variables to values distinct
from the literal `"Not found"`, `/api/vault-status` reports status
`"partial"` and `secrets_loaded` equal to the count of variables set. -/
theorem C3_proper_subset_is_partial (env : Env) (c : Clock)
    (hg : ∀ n ∈ secretVarNames, goodEnvB env n = true)
    (hpos : 0 < countSet env) (hlt : countSet env < 7) :
    (vault_status env c).status = "partial" ∧
    (vault_status env c).secrets_loaded = countSet env := by
  have htot : (vault_status env c).secrets_loaded = countSet env :=
    total_loaded_eq_countSet env c hg
  refine ⟨?_, htot⟩
  exact (sourceStatus7_iffs ((vault_status env c).secrets_loaded)).2.2.1.mpr
    ⟨by omega, by omega⟩

/-- The spec's example environment: `MYAPP_USERNAME=alice`,
`MYAPP_PASSWORD=secret`, all other variables unset. -/
def envAlice : Env := fun n =>
  if n = "MYAPP_USERNAME" then some "alice"
  else if n = "MYAPP_PASSWORD" then some "secret" else none

theorem C3_proper_subset_is_partial_witness :
    (∀ n ∈ secretVarNames, goodEnvB envAlice n = true) ∧
    0 < countSet envAlice ∧ countSet envAlice < 7 ∧
    (vault_status envAlice clock0).status = "partial" ∧
    (vault_status envAlice clock0).secrets_loaded = 2 ∧
    (vault_status envAlice clock0).secrets_expected = 7 ∧
    (vault_status envAlice clock0).myapp_secrets = 2 ∧
    (vault_status envAlice clock0).database_secrets = 0 := by
  have h := C3_proper_subset_is_partial envAlice clock0 (by decide) (by decide) (by decide)
  exact ⟨by decide, by decide, by decide, h.1, by decide, rfl, by decide, by decide⟩

/-- A concrete environment setting only `MYAPP_USERNAME`, to the literal
`"Not found"`. -/
def envNFUser : Env := fun n => if n = "MYAPP_USERNAME" then some "Not found" else none

/-- C3 counterexample: with exactly one of the seven variables set (a proper
non-empty, non-complete subset), namely `MYAPP_USERNAME` set to the literal
`"Not found"`, `/api/vault-status` reports status `"failed"` and
`secrets_loaded` 0 — not `"partial"` with `secrets_loaded` equal to the
count of variables set (1). -/
theorem C3_counterexample :
    countSet envNFUser = 1 ∧
    (vault_status envNFUser clock0).status = "failed" ∧
    (vault_status envNFUser clock0).secrets_loaded = 0 :=
  ⟨by decide, by decide, by decide⟩
